import Mathlib

/-!
Shallow embedding of the MediaInfoApi service (src/main.py) and proofs about
its three request pipelines (probe-audio, extract-audio, transcribe-audio).

Strings are modelled as List Char.  External collaborators (the ffprobe and
ffmpeg processes, the S3 and Transcribe clients, the filesystem) are modelled
by explicit world records enumerating their possible outcomes; each pipeline
is a pure function from the request and the world to the response together
with the trace of collaborator calls it performed.
-/

namespace MediaInfoApi

/-! ## Python string primitives -/

/-- Python str.split with an explicit one-character separator.
    "".split(c) = [""], so the result is always nonempty. -/
def pySplit (sep : Char) : List Char → List (List Char)
  | [] => [[]]
  | c :: rest =>
    let r := pySplit sep rest
    if c == sep then [] :: r
    else
      match r with
      | [] => [[c]]
      | g :: gs => (c :: g) :: gs

/-- Python os.path.basename on POSIX: everything after the last slash. -/
def basename (l : List Char) : List Char :=
  (l.reverse.takeWhile (fun c => c != '/')).reverse

/-- Python str.endswith (case-sensitive). -/
def pyEndsWith (l suf : List Char) : Bool :=
  l.drop (l.length - suf.length) == suf

/-- Python str.lower restricted to the ASCII data this service handles. -/
def lowerAll (l : List Char) : List Char := l.map Char.toLower

/-! ## urllib.parse.urlparse

Faithful to CPython 3.11 urlsplit/urlparse for URLs without IPv6 brackets:
the URL is stripped of leading/trailing C0-control-or-space characters and
of tab/CR/LF everywhere; a scheme is recognised when a colon is preceded by
an ASCII letter followed by letters, digits, plus, minus or dot, and is
lowercased; a netloc follows a double slash and runs up to the next slash,
question mark or hash; the fragment is split off at the first hash, the
query at the first question mark; urlparse additionally splits params at
the first semicolon after the last slash of the path. -/

structure UrlParts where
  scheme : List Char
  netloc : List Char
  path : List Char
  query : List Char
  fragment : List Char
deriving DecidableEq

def c0OrSpace (c : Char) : Bool := c.toNat ≤ 0x20

def tabCrLf (c : Char) : Bool := c == '\t' || c == '\r' || c == '\n'

def stripUrl (l : List Char) : List Char :=
  ((((l.dropWhile c0OrSpace).reverse.dropWhile c0OrSpace).reverse).filter
    (fun c => !tabCrLf c))

def schemeChar (c : Char) : Bool :=
  c.isAlpha || c.isDigit || c == '+' || c == '-' || c == '.'

/-- Split a list at the first occurrence of c: (part before, part after).
    If c does not occur, the second component is empty. -/
def splitOnce (c : Char) (l : List Char) : List Char × List Char :=
  (l.takeWhile (fun a => a != c), (l.dropWhile (fun a => a != c)).drop 1)

/-- Python _splitparams: drop everything from the first semicolon occurring
    after the last slash (or anywhere, when there is no slash). -/
def dropParams (l : List Char) : List Char :=
  let pre := (l.reverse.dropWhile (fun c => c != '/')).reverse
  let seg := (l.reverse.takeWhile (fun c => c != '/')).reverse
  pre ++ seg.takeWhile (fun c => c != ';')

def urlparse (url : List Char) : UrlParts :=
  let u := stripUrl url
  let (scheme, rest) :=
    match u.findIdx? (fun c => c == ':') with
    | some i =>
      if 0 < i then
        match u.take i with
        | c :: cs =>
          if c.isAlpha && cs.all schemeChar then (lowerAll (u.take i), u.drop (i + 1))
          else ([], u)
        | [] => ([], u)
      else ([], u)
    | none => ([], u)
  let (netloc, rest2) :=
    if rest.take 2 == ['/', '/'] then
      let after := rest.drop 2
      let nl := after.takeWhile (fun c => !(c == '/' || c == '?' || c == '#'))
      (nl, after.drop nl.length)
    else ([], rest)
  let (rest3, fragment) := splitOnce '#' rest2
  let (rawPath, query) := splitOnce '?' rest3
  { scheme := scheme, netloc := netloc, path := dropParams rawPath,
    query := query, fragment := fragment }

/-! ## The GUID regexes (main.py:106 and main.py:183)

Both regexes have the fixed-length form
  caret ( hex{8} - hex{4} - hex{4} - hex{4} - hex{12} ) backslash-dot ext dollar
compiled with re.I and applied with re.match.  The character class [0-9a-f]
under re.I matches upper- and lower-case ASCII hex digits; the literal
extension letters are also case-insensitive under re.I; the dollar anchor
also matches just before a single trailing newline. -/

def hexCI (c : Char) : Bool :=
  c.isDigit || ('a' ≤ c && c ≤ 'f') || ('A' ≤ c && c ≤ 'F')

/-- The 36-character 8-4-4-4-12 GUID shape of the regexes. -/
def isGuid (l : List Char) : Bool :=
  l.length == 36 &&
  (pySplit '-' l).map List.length == [8, 4, 4, 4, 12] &&
  l.all (fun c => hexCI c || c == '-')

/-- Exact-length match of guid ++ ext (ext compared case-insensitively,
    given in lower case), returning the captured group. -/
def matchGuidExtCore (ext l : List Char) : Option (List Char) :=
  if l.length == 36 + ext.length && isGuid (l.take 36) &&
      lowerAll (l.drop 36) == ext then
    some (l.take 36)
  else none

/-- re.match of the anchored GUID-plus-extension pattern: the dollar anchor
    also accepts a single trailing newline. -/
def matchGuidExt (ext l : List Char) : Option (List Char) :=
  match matchGuidExtCore ext l with
  | some g => some g
  | none =>
    if l.getLast? == some '\n' then matchGuidExtCore ext l.dropLast
    else none

/-! ## Probe pipeline (main.py:59-92)

The ffprobe invocation and the JSON parse are collaborators: their outcome
is an input of the model.  A shape-conforming parsed output is modelled by
POutput; duration values are kept as their raw JSON string and the Python
float builtin is abstracted by a parseOk predicate passed to the model
(float on a string either yields a value determined by the string or raises
ValueError; which strings parse is a fixed fact of Python, e.g.
float applied to "abc" raises). -/

structure PStream where
  codec_type : Option (List Char) := none
  duration : Option (List Char) := none
deriving DecidableEq

structure PFormat where
  duration : Option (List Char) := none
deriving DecidableEq

structure POutput where
  format : Option PFormat := none
  streams : Option (List PStream) := none
deriving DecidableEq

/-- Outcome of running ffprobe and json.loads on its stdout. -/
inductive ToolRes where
  | fail (stderr : List Char)
  | badJson (msg : List Char)
  | ok (out : POutput)
deriving DecidableEq

structure ProbeResponse where
  success : Bool
  has_audio : Option Bool := none
  duration : Option (List Char) := none
  error : Option (List Char) := none
deriving DecidableEq

def quoteChar : Char := Char.ofNat 39

/-- str of the ValueError raised by float on a non-numeric string. -/
def floatErrMsg (d : List Char) : List Char :=
  "could not convert string to float: ".data ++ [quoteChar] ++ d ++ [quoteChar]

/-- The stream-level fallback of main.py:78-82: scanned only when the
    streams value is a non-empty list, taking the first stream that
    carries a duration field. -/
def streamDur (out : POutput) : Option (List Char) :=
  match out.streams with
  | some ss =>
    if ss.isEmpty then none
    else ((ss.find? fun s => s.duration.isSome).bind fun s => s.duration)
  | none => none

/-- The duration string the code passes to float, main.py:76-82: the
    format-level field when the format object carries one, otherwise the
    stream-level fallback. -/
def selectedDur (out : POutput) : Option (List Char) :=
  match out.format with
  | some f =>
    match f.duration with
    | some d => some d
    | none => streamDur out
  | none => streamDur out

def probeRun (parseOk : List Char → Bool) : ToolRes → ProbeResponse
  | .fail stderr =>
    { success := false, error := some ("ffprobe failed - ".data ++ stderr) }
  | .badJson msg => { success := false, error := some msg }
  | .ok out =>
    let has_audio :=
      (out.streams.getD []).any fun s => s.codec_type == some "audio".data
    match selectedDur out with
    | none => { success := true, has_audio := some has_audio, duration := none }
    | some d =>
      if parseOk d then
        { success := true, has_audio := some has_audio, duration := some d }
      else
        { success := false, error := some (floatErrMsg d) }

/-- Modelled from the spec: the duration rule as section 4.1 words it, for
    refinement comparison — the container-level duration field if present,
    else the first stream entry that carries a duration field, else absent. -/
def specDuration (out : POutput) : Option (List Char) :=
  match out.format.bind (fun f => f.duration) with
  | some d => some d
  | none => (out.streams.getD []).findSome? fun s => s.duration

/-! ## Extract pipeline (main.py:96-174)

The world enumerates the collaborator outcomes the handler distinguishes.
The trace records every collaborator call with its arguments.  The handler
body (the try/except part, main.py:99-166) always produces a response; the
finally block (main.py:168-174) then runs: when temp_audio_file is still
None it evaluates os.path.exists None, which raises TypeError — an
exception raised in a finally block discards the pending return, so it
escapes the handler. -/

inductive AwsRes where
  | ok
  | clientErr (e : List Char)
  | credsErr (e : List Char)
deriving DecidableEq

inductive ExtCall where
  | ffmpeg (src dst : List Char)
  | headBucket (bucket : List Char)
  | upload (file bucket key : List Char)
  | removeFile (p : List Char)
deriving DecidableEq

structure EWorld where
  ffmpeg : Option (List Char)
  ffmpegCreatesOnFail : Bool
  headBucket : AwsRes
  upload : Option (List Char)
  removeOk : Bool
deriving DecidableEq

structure FS where
  calls : List ExtCall
  temp : Option (List Char)
  created : Bool
  scratchExists : Bool
deriving DecidableEq

structure ExtractAudioResponse where
  success : Bool
  output_key : Option (List Char) := none
  transcription_job_name : Option (List Char) := none
  error : Option (List Char) := none
deriving DecidableEq

/-- main.py:104-109: the endswith check, then the GUID regex. -/
def validateFileName (file_name : List Char) : Except (List Char) (List Char) :=
  if !pyEndsWith file_name ".mp4".data then
    .error ("Input file must be an .mp4 file, got: ".data ++ file_name)
  else
    match matchGuidExt ".mp4".data file_name with
    | none => .error ("File name must be a GUID followed by .mp4, got: ".data ++ file_name)
    | some asset_id => .ok asset_id

/-- main.py:141: the destination key of the extracted audio. -/
def audioKeyOf (asset_id : List Char) : List Char :=
  "VOD/FinishedVideos/".data ++ asset_id ++ ".mp3".data

inductive BucketRes where
  | found (b : List Char)
  | valueError
  | indexError
deriving DecidableEq

/-- main.py:124-131: bucket name from the parsed URL.  For the s3 scheme
    the code indexes path.split with 1, which raises IndexError when the
    path has no slash. -/
def resolveBucket (pr : UrlParts) : BucketRes :=
  if pyEndsWith pr.netloc ".s3.amazonaws.com".data then
    .found ((pySplit '.' pr.netloc).headD [])
  else if pr.scheme == "s3".data then
    match (pySplit '/' pr.path).get? 1 with
    | some b => .found b
    | none => .indexError
  else .valueError

/-- The try/except part of extract_audio, main.py:99-166.  Every fault of
    this part is caught by one of the except clauses, so the body always
    yields a response.  It takes exactly the collaborator outcomes it
    consults: the ffmpeg result, whether a failed ffmpeg run left the
    scratch file behind, the head_bucket result and the upload result
    (the os.remove outcome belongs to the finally block only). -/
def extractBody (url : List Char) (ffm : Option (List Char)) (cof : Bool)
    (hbk : AwsRes) (upl : Option (List Char)) : ExtractAudioResponse × FS :=
  let pr := urlparse url
  let file_name := basename pr.path
  match validateFileName file_name with
  | .error msg =>
    ({ success := false, error := some ("Validation error: ".data ++ msg) },
     { calls := [], temp := none, created := false, scratchExists := false })
  | .ok asset_id =>
    let temp := "/tmp/".data ++ asset_id ++ ".mp3".data
    match ffm with
    | some stderr =>
      ({ success := false, error := some ("Audio extraction failed: ".data ++ stderr) },
       { calls := [.ffmpeg url temp], temp := some temp,
         created := cof, scratchExists := cof })
    | none =>
      let fs1 : FS :=
        { calls := [.ffmpeg url temp], temp := some temp,
          created := true, scratchExists := true }
      match resolveBucket pr with
      | .valueError =>
        ({ success := false,
           error := some "Validation error: Could not determine bucket name from URL".data }, fs1)
      | .indexError =>
        ({ success := false,
           error := some "Unexpected error: list index out of range".data }, fs1)
      | .found bucket =>
        let fs2 : FS := { fs1 with calls := fs1.calls ++ [.headBucket bucket] }
        match hbk with
        | .clientErr _ =>
          ({ success := false,
             error := some ("Validation error: Invalid or inaccessible bucket: ".data ++ bucket) }, fs2)
        | .credsErr e =>
          ({ success := false, error := some ("AWS S3 error: ".data ++ e) }, fs2)
        | .ok =>
          let audio_key := audioKeyOf asset_id
          let fs3 : FS := { fs2 with calls := fs2.calls ++ [.upload temp bucket audio_key] }
          match upl with
          | some e =>
            ({ success := false, error := some ("AWS S3 error: ".data ++ e) }, fs3)
          | none =>
            ({ success := true, output_key := some audio_key }, fs3)

/-- The only exception that can escape a handler of this service. -/
inductive PyExn where
  | typeError
deriving DecidableEq

/-- The finally block, main.py:168-174.  With temp still None,
    os.path.exists None raises TypeError, which replaces the pending
    return.  Otherwise the scratch file is removed when it exists; a
    failure of os.remove is caught by the inner except and only logged. -/
def applyFinally (w : EWorld) : ExtractAudioResponse × FS → Except PyExn ExtractAudioResponse × FS
  | (r, fs) =>
    match fs.temp with
    | none => (.error .typeError, fs)
    | some t =>
      if fs.scratchExists then
        if w.removeOk then
          (.ok r, { fs with calls := fs.calls ++ [.removeFile t], scratchExists := false })
        else
          (.ok r, { fs with calls := fs.calls ++ [.removeFile t] })
      else (.ok r, fs)

def extract_audio (url : List Char) (w : EWorld) : Except PyExn ExtractAudioResponse × FS :=
  applyFinally w (extractBody url w.ffmpeg w.ffmpegCreatesOnFail w.headBucket w.upload)

def setRemoveOk (w : EWorld) (b : Bool) : EWorld := { w with removeOk := b }

/-! ## Transcribe pipeline (main.py:177-222) -/

structure TranscribeAudioRequest where
  audio_key : List Char
  bucket_name : List Char
  language_code : List Char := "en-US".data
deriving DecidableEq

structure TranscribeAudioResponse where
  success : Bool
  transcription_job_name : Option (List Char) := none
  error : Option (List Char) := none
deriving DecidableEq

structure JobReq where
  jobName : List Char
  mediaUri : List Char
  mediaFormat : List Char
  languageCode : List Char
  outputBucketName : List Char
  outputKey : List Char
deriving DecidableEq

inductive TCall where
  | headObject (bucket key : List Char)
  | startJob (j : JobReq)
deriving DecidableEq

def TCall.isStartJob : TCall → Bool
  | .startJob _ => true
  | _ => false

structure TWorld where
  headObject : AwsRes
  startJob : AwsRes
deriving DecidableEq

def transcribeRun (req : TranscribeAudioRequest) (w : TWorld) :
    TranscribeAudioResponse × List TCall :=
  let file_name := basename req.audio_key
  match matchGuidExt ".mp3".data file_name with
  | none =>
    ({ success := false,
       error := some ("Validation error: Audio file name must be a GUID followed by .mp3, got: ".data ++ file_name) }, [])
  | some asset_id =>
    let jobName := "transcription_".data ++ asset_id
    let headCall := TCall.headObject req.bucket_name req.audio_key
    match w.headObject with
    | .clientErr _ =>
      ({ success := false,
         error := some ("Invalid or inaccessible audio file: ".data ++ req.audio_key) }, [headCall])
    | .credsErr e =>
      ({ success := false,
         error := some ("AWS Transcribe error: ".data ++ e) }, [headCall])
    | .ok =>
      let job : JobReq :=
        { jobName := jobName,
          mediaUri := "s3://".data ++ req.bucket_name ++ "/".data ++ req.audio_key,
          mediaFormat := "mp3".data,
          languageCode := req.language_code,
          outputBucketName := req.bucket_name,
          outputKey := "VOD/Subtitles/".data ++ asset_id ++ ".json".data }
      let calls := [headCall, TCall.startJob job]
      match w.startJob with
      | .ok => ({ success := true, transcription_job_name := some jobName }, calls)
      | .clientErr e =>
        ({ success := false, error := some ("AWS Transcribe error: ".data ++ e) }, calls)
      | .credsErr e =>
        ({ success := false, error := some ("AWS Transcribe error: ".data ++ e) }, calls)

/-! ## Concrete requests and worlds used by the theorems -/

/-- A world in which every collaborator succeeds. -/
def wAllOk : EWorld :=
  { ffmpeg := none, ffmpegCreatesOnFail := false, headBucket := .ok,
    upload := none, removeOk := true }

def urlNotGuid : List Char :=
  "https://mybucket.s3.amazonaws.com/video.mp4".data

def urlNotGuid2 : List Char :=
  "https://mybucket.s3.amazonaws.com/not-a-guid.mp4".data

def urlS3Style : List Char :=
  "s3://mybucket/videos/3fa85f64-5717-4562-b3fc-2c963f66afa6.mp4".data

def tmpS3Style : List Char :=
  "/tmp/3fa85f64-5717-4562-b3fc-2c963f66afa6.mp3".data

def keyS3Style : List Char :=
  "VOD/FinishedVideos/3fa85f64-5717-4562-b3fc-2c963f66afa6.mp3".data

def urlUpperExt : List Char :=
  "https://mybucket.s3.amazonaws.com/3fa85f64-5717-4562-b3fc-2c963f66afa6.MP4".data

def urlUpperGuid : List Char :=
  "https://mybucket.s3.amazonaws.com/3FA85F64-5717-4562-B3FC-2C963F66AFA6.mp4".data

/-- The response of a successful extraction of urlUpperGuid. -/
def respUpperGuid : ExtractAudioResponse :=
  { success := true,
    output_key := some "VOD/FinishedVideos/3FA85F64-5717-4562-B3FC-2C963F66AFA6.mp3".data }

/-! ## Theorems -/

/-- C1: the claim that no fault ever escapes a handler fails on the code.
    On an extract-audio request whose URL basename is not a GUID, the
    except-ValueError clause builds the validation response, but the
    finally block then evaluates os.path.exists on the still-None
    temp_audio_file, and the resulting TypeError discards the pending
    return and escapes the handler (a transport-level 500). -/
theorem extract_audio_validation_failure_escapes :
    (extract_audio urlNotGuid wAllOk).1 = Except.error PyExn.typeError := by
  rfl

/-- C2: on an extract-audio request with a non-GUID basename the handler
    indeed performs no collaborator call, but it does not return the
    success-false validation response: the TypeError raised by the finally
    block on the None scratch path escapes instead. -/
theorem extract_audio_bad_basename_no_calls_but_raises :
    (extract_audio urlNotGuid2 wAllOk).1 = Except.error PyExn.typeError ∧
    (extract_audio urlNotGuid2 wAllOk).2.calls = [] := by
  exact ⟨rfl, by decide⟩

/-- C3: for an s3-scheme URL the code does not resolve the bucket to the
    URL authority: urlparse puts the bucket into netloc while the code
    indexes path.split with 1, so s3://mybucket/videos/guid.mp4 resolves
    to the bucket "videos", and "mybucket" is never checked. -/
theorem extract_audio_s3_scheme_wrong_bucket :
    (extract_audio urlS3Style wAllOk).2.calls =
      [ExtCall.ffmpeg urlS3Style tmpS3Style,
       ExtCall.headBucket "videos".data,
       ExtCall.upload tmpS3Style "videos".data keyS3Style,
       ExtCall.removeFile tmpS3Style] ∧
    ExtCall.headBucket "mybucket".data ∉ (extract_audio urlS3Style wAllOk).2.calls := by
  constructor <;> decide

/-- C10: the extension check at main.py:104 is case-sensitive while the
    GUID regex is case-insensitive: an uppercase .MP4 basename is turned
    away before any collaborator call (though, because of the cleanup slip
    of C1, the handler raises TypeError rather than returning the
    validation response), while an uppercase-hex GUID with lowercase .mp4
    runs the full pipeline successfully. -/
theorem extract_audio_ext_case_guid_case :
    ((extract_audio urlUpperExt wAllOk).1 = Except.error PyExn.typeError ∧
     (extract_audio urlUpperExt wAllOk).2.calls = []) ∧
    (extract_audio urlUpperGuid wAllOk).1 = Except.ok respUpperGuid := by
  exact ⟨⟨rfl, by decide⟩, rfl⟩

/-! ### Probe theorems (C6, C7) -/

/-- A parse predicate agreeing with the Python float builtin on every
    duration string consulted by the concrete probe outputs below: float
    accepts the numeric literals 12.5 and 5.0 and raises ValueError on the
    string abc. -/
def pyFloatOkOn : List Char → Bool :=
  fun s => s == "12.5".data || s == "5.0".data

/-- Tool-success output whose format duration is the unparseable string
    abc and whose single stream is an audio stream without a duration. -/
def outBadFormatDur : POutput :=
  { format := some { duration := some "abc".data },
    streams := some [{ codec_type := some "audio".data }] }

/-- Tool-success output whose format duration is unparseable while its
    audio stream carries the parseable duration 5.0. -/
def outBadFormatGoodStream : POutput :=
  { format := some { duration := some "abc".data },
    streams := some [{ codec_type := some "audio".data, duration := some "5.0".data }] }

/-- The spec example output: one audio stream, container duration 12.5. -/
def outSpecExample : POutput :=
  { format := some { duration := some "12.5".data },
    streams := some [{ codec_type := some "audio".data }] }

/-- C6 counterexample: a probe whose tool succeeds and whose output parses
    as JSON, with an audio stream present, does not return success true
    when the container duration string does not parse as a float (float
    raises ValueError, caught by the blanket except): the response is
    success false with has_audio absent. -/
theorem probe_parsed_output_not_always_success :
    (probeRun pyFloatOkOn (ToolRes.ok outBadFormatDur)).success = false ∧
    (probeRun pyFloatOkOn (ToolRes.ok outBadFormatDur)).has_audio = none := by
  exact ⟨rfl, rfl⟩

/-- The response shape of a successful probe. -/
def probeOkResp (ha : Bool) (d : Option (List Char)) : ProbeResponse :=
  { success := true, has_audio := some ha, duration := d, error := none }

/-- On a tool-success output whose consulted duration string (if any)
    parses, probeRun returns the success response carrying the computed
    has_audio flag and the selected duration. -/
theorem probeRun_ok_reduction (parseOk : List Char → Bool) (out : POutput)
    (h : (selectedDur out).all parseOk = true) :
    probeRun parseOk (ToolRes.ok out) =
      probeOkResp ((out.streams.getD []).any fun s => s.codec_type == some "audio".data)
        (selectedDur out) := by
  cases hsel : selectedDur out with
  | none => simp only [probeRun, hsel, probeOkResp]
  | some d =>
    rw [hsel] at h
    simp only [Option.all] at h
    simp only [probeRun, hsel, h, if_true, probeOkResp]

/-- C6 (amended): when the inspection tool succeeds, the output parses,
    and the duration string the code consults (if any) parses as a float,
    the response has success true and has_audio is some b with b true
    exactly when some stream entry has codec type audio (so b is false,
    not absent, when there are zero streams). -/
theorem probe_has_audio_iff (parseOk : List Char → Bool) (out : POutput)
    (h : (selectedDur out).all parseOk = true) :
    (probeRun parseOk (ToolRes.ok out)).success = true ∧
    ∃ b, (probeRun parseOk (ToolRes.ok out)).has_audio = some b ∧
      (b = true ↔ ∃ s ∈ out.streams.getD [], s.codec_type = some "audio".data) := by
  rw [probeRun_ok_reduction parseOk out h]
  refine ⟨rfl, _, rfl, ?_⟩
  simp [List.any_eq_true]

/-- Witness for C6 (amended) at the spec example output. -/
theorem probe_has_audio_iff_witness :
    (selectedDur outSpecExample).all pyFloatOkOn = true ∧
    ((probeRun pyFloatOkOn (ToolRes.ok outSpecExample)).success = true ∧
     ∃ b, (probeRun pyFloatOkOn (ToolRes.ok outSpecExample)).has_audio = some b ∧
       (b = true ↔ ∃ s ∈ outSpecExample.streams.getD [],
         s.codec_type = some "audio".data)) :=
  ⟨by decide, probe_has_audio_iff pyFloatOkOn outSpecExample (by decide)⟩

/-- C7 counterexample: when the container duration is present but does not
    parse as a float, the code does not fall back to the stream duration
    (here the parseable 5.0): the whole probe fails with duration absent. -/
theorem probe_no_fallback_on_unparseable_container_duration :
    (probeRun pyFloatOkOn (ToolRes.ok outBadFormatGoodStream)).duration = none ∧
    (probeRun pyFloatOkOn (ToolRes.ok outBadFormatGoodStream)).success = false := by
  exact ⟨rfl, rfl⟩

theorem find_duration_bind_eq_findSome (ss : List PStream) :
    ((ss.find? fun s => s.duration.isSome).bind fun s => s.duration) =
      ss.findSome? fun s => s.duration := by
  induction ss with
  | nil => rfl
  | cons s ss ih =>
    cases hd : s.duration with
    | none =>
      rw [List.find?_cons_of_neg _ (by simp [hd]), List.findSome?_cons]
      simp only [hd]
      exact ih
    | some d =>
      rw [List.find?_cons_of_pos _ (by simp [hd]), List.findSome?_cons]
      simp [hd]

/-- The duration string the code selects coincides with the spec wording
    of the selection rule. -/
theorem selectedDur_eq_specDuration (out : POutput) :
    selectedDur out = specDuration out := by
  have hstream : streamDur out = ((out.streams.getD []).findSome? fun s => s.duration) := by
    unfold streamDur
    cases hs : out.streams with
    | none => rfl
    | some ss =>
      cases ss with
      | nil => rfl
      | cons s tl => simp [find_duration_bind_eq_findSome]
  unfold selectedDur specDuration
  cases hf : out.format with
  | none => simpa using hstream
  | some f =>
    cases hd : f.duration with
    | none => simpa [hd] using hstream
    | some d => simp [hd]

/-- C7 (amended): when the duration string the code consults (if any)
    parses as a float, the probe succeeds and the reported duration is
    exactly the field the spec rule selects: the container-level duration
    when the format object carries one, else the duration of the first
    stream entry that carries one, else absent — never zero.  When the
    consulted string does not parse the probe fails as a whole (previous
    counterexample) instead of falling back. -/
theorem probe_duration_rule (parseOk : List Char → Bool) (out : POutput)
    (h : (selectedDur out).all parseOk = true) :
    (probeRun parseOk (ToolRes.ok out)).duration = specDuration out ∧
    (probeRun parseOk (ToolRes.ok out)).success = true := by
  rw [probeRun_ok_reduction parseOk out h, ← selectedDur_eq_specDuration]
  exact ⟨rfl, rfl⟩

/-- Tool-success output with no format object and a single stream carrying
    the parseable duration 5.0. -/
def outStreamOnly : POutput :=
  { format := none,
    streams := some [{ codec_type := some "audio".data, duration := some "5.0".data }] }

/-- Witness for C7 (amended) at outStreamOnly. -/
theorem probe_duration_rule_witness :
    (selectedDur outStreamOnly).all pyFloatOkOn = true ∧
    ((probeRun pyFloatOkOn (ToolRes.ok outStreamOnly)).duration = specDuration outStreamOnly ∧
     (probeRun pyFloatOkOn (ToolRes.ok outStreamOnly)).success = true) :=
  ⟨by decide, probe_duration_rule pyFloatOkOn outStreamOnly (by decide)⟩

/-! ### Cleanup theorems (C4) -/

/-- setRemoveOk leaves every field the body consults unchanged. -/
theorem setRemoveOk_ffmpeg (w : EWorld) (b : Bool) :
    (setRemoveOk w b).ffmpeg = w.ffmpeg := rfl

theorem setRemoveOk_cof (w : EWorld) (b : Bool) :
    (setRemoveOk w b).ffmpegCreatesOnFail = w.ffmpegCreatesOnFail := rfl

theorem setRemoveOk_headBucket (w : EWorld) (b : Bool) :
    (setRemoveOk w b).headBucket = w.headBucket := rfl

theorem setRemoveOk_upload (w : EWorld) (b : Bool) :
    (setRemoveOk w b).upload = w.upload := rfl

/-- Body invariant: the scratch file exists at the finally block exactly
    when it was created, and a created scratch file implies the temp path
    was assigned. -/
theorem extractBody_inv (url : List Char) (ffm : Option (List Char)) (cof : Bool)
    (hbk : AwsRes) (upl : Option (List Char)) :
    (extractBody url ffm cof hbk upl).2.created =
      (extractBody url ffm cof hbk upl).2.scratchExists ∧
    ((extractBody url ffm cof hbk upl).2.created = true →
      (extractBody url ffm cof hbk upl).2.temp ≠ none) := by
  simp only [extractBody]
  cases hv : validateFileName (basename (urlparse url).path) with
  | error msg => exact ⟨rfl, fun h => by simp at h⟩
  | ok asset_id =>
    cases ffm with
    | some stderr => exact ⟨rfl, fun h => by simp⟩
    | none =>
      cases hb : resolveBucket (urlparse url) with
      | valueError => exact ⟨rfl, fun h => by simp⟩
      | indexError => exact ⟨rfl, fun h => by simp⟩
      | found bucket =>
        cases hbk with
        | clientErr e => exact ⟨rfl, fun h => by simp⟩
        | credsErr e => exact ⟨rfl, fun h => by simp⟩
        | ok =>
          cases upl with
          | some e => exact ⟨rfl, fun h => by simp⟩
          | none => exact ⟨rfl, fun h => by simp⟩

/-- The finally block never changes the created flag. -/
theorem applyFinally_created (w : EWorld) (p : ExtractAudioResponse × FS) :
    (applyFinally w p).2.created = p.2.created := by
  obtain ⟨f, cf, hb, up, ro⟩ := w
  obtain ⟨r, calls, temp, created, scratch⟩ := p
  cases temp <;> cases scratch <;> cases ro <;> rfl

/-- The primary outcome of the finally block does not depend on whether
    os.remove succeeds. -/
theorem applyFinally_fst (w w' : EWorld) (p : ExtractAudioResponse × FS) :
    (applyFinally w p).1 = (applyFinally w' p).1 := by
  obtain ⟨f, cf, hb, up, ro⟩ := w
  obtain ⟨f', cf', hb', up', ro'⟩ := w'
  obtain ⟨r, calls, temp, created, scratch⟩ := p
  cases temp <;> cases scratch <;> cases ro <;> cases ro' <;> rfl

/-- C4: whenever the scratch file was created during an extract-audio
    request, the finally block removes it before the handler returns (it
    is gone exactly when os.remove succeeds, and still there when the
    removal itself fails), and the primary outcome of the request is
    unchanged by whether the removal succeeds or fails. -/
theorem extract_audio_cleanup (url : List Char) (w : EWorld) (b : Bool)
    (h : (extract_audio url w).2.created = true) :
    (extract_audio url w).2.scratchExists = !w.removeOk ∧
    (extract_audio url (setRemoveOk w b)).1 = (extract_audio url w).1 := by
  have hinv := extractBody_inv url w.ffmpeg w.ffmpegCreatesOnFail w.headBucket w.upload
  unfold extract_audio at h ⊢
  rw [setRemoveOk_ffmpeg, setRemoveOk_cof, setRemoveOk_headBucket, setRemoveOk_upload]
  rcases hE : extractBody url w.ffmpeg w.ffmpegCreatesOnFail w.headBucket w.upload with ⟨r, fs⟩
  rw [hE] at h hinv
  have hcreated : fs.created = true := by
    rw [← applyFinally_created w (r, fs)]
    exact h
  have hscr : fs.scratchExists = true := by
    have h1 : fs.created = fs.scratchExists := hinv.1
    rw [← h1]
    exact hcreated
  obtain ⟨t, htemp⟩ : ∃ t, fs.temp = some t := by
    cases hx : fs.temp with
    | none => exact absurd hx (hinv.2 hcreated)
    | some t => exact ⟨t, rfl⟩
  constructor
  · simp only [applyFinally, htemp, hscr]
    cases hro : w.removeOk <;> simp
  · exact applyFinally_fst (setRemoveOk w b) w (r, fs)

def urlHappy : List Char :=
  "https://demo.s3.amazonaws.com/3fa85f64-5717-4562-b3fc-2c963f66afa6.mp4".data

/-- Witness for C4 at a happy-path request, in which the scratch file is
    created. -/
theorem extract_audio_cleanup_witness :
    (extract_audio urlHappy wAllOk).2.created = true ∧
    ((extract_audio urlHappy wAllOk).2.scratchExists = !wAllOk.removeOk ∧
     (extract_audio urlHappy (setRemoveOk wAllOk false)).1 = (extract_audio urlHappy wAllOk).1) :=
  ⟨by decide, extract_audio_cleanup urlHappy wAllOk false (by decide)⟩

/-! ### Naming round-trip (C5) -/

theorem hex_dash_ne_slash (c : Char) (h : (hexCI c || c == '-') = true) :
    (c != '/') = true := by
  have h' := h
  simp only [Bool.or_eq_true] at h'
  rcases h' with h1 | h2
  · by_contra hc
    have hceq : c = '/' := by
      by_contra hne
      exact hc (bne_iff_ne.mpr hne)
    subst hceq
    exact absurd h1 (by decide)
  · have hceq : c = '-' := beq_iff_eq.mp h2
    subst hceq
    decide

theorem takeWhile_append_of_all {p : Char → Bool} (l₁ l₂ : List Char)
    (h : ∀ a ∈ l₁, p a = true) :
    (l₁ ++ l₂).takeWhile p = l₁ ++ l₂.takeWhile p := by
  induction l₁ with
  | nil => simp
  | cons a l ih =>
    have ha := h a (List.mem_cons_self a l)
    simp [List.takeWhile_cons, ha, ih (fun x hx => h x (List.mem_cons_of_mem a hx))]

/-- basename strips the fixed VOD/FinishedVideos/ key parts when the file
    name itself contains no slash. -/
theorem basename_vod (s : List Char) (hs : ∀ c ∈ s, (c != '/') = true) :
    basename ("VOD/FinishedVideos/".data ++ s) = s := by
  unfold basename
  rw [List.reverse_append]
  rw [takeWhile_append_of_all s.reverse _ (fun a ha => hs a (List.mem_reverse.mp ha))]
  have hpre : ("VOD/FinishedVideos/".data.reverse.takeWhile fun c => c != '/') = [] := by
    decide
  rw [hpre, List.append_nil, List.reverse_reverse]

theorem isGuid_length (g : List Char) (hg : isGuid g = true) : g.length = 36 := by
  unfold isGuid at hg
  rw [Bool.and_eq_true, Bool.and_eq_true] at hg
  exact beq_iff_eq.mp hg.1.1

theorem isGuid_chars (g : List Char) (hg : isGuid g = true) :
    ∀ c ∈ g, (hexCI c || c == '-') = true := by
  unfold isGuid at hg
  rw [Bool.and_eq_true] at hg
  exact List.all_eq_true.mp hg.2

/-- The anchored GUID regex accepts a valid GUID followed by its (already
    lower-case) extension, capturing the GUID. -/
theorem matchGuidExt_append (ext g : List Char) (hg : isGuid g = true)
    (hlow : lowerAll ext = ext) :
    matchGuidExt ext (g ++ ext) = some g := by
  have hlen : g.length = 36 := isGuid_length g hg
  have htake : (g ++ ext).take 36 = g := by
    rw [← hlen]
    exact List.take_left g ext
  have hdrop : (g ++ ext).drop 36 = ext := by
    rw [← hlen]
    exact List.drop_left g ext
  have hcore : matchGuidExtCore ext (g ++ ext) = some g := by
    unfold matchGuidExtCore
    rw [htake, hdrop, hlow]
    simp [List.length_append, hlen, hg]
  unfold matchGuidExt
  rw [hcore]

/-- C5: for every valid GUID g (upper-case hex digits included), the
    extraction validation of the basename g.mp4 accepts and captures g,
    the derived audio key is VOD/FinishedVideos/g.mp3, and the
    transcription validation re-derives exactly g from the basename of
    that key. -/
theorem guid_naming_roundtrip (g : List Char) (hg : isGuid g = true) :
    validateFileName (g ++ ".mp4".data) = Except.ok g ∧
    audioKeyOf g = "VOD/FinishedVideos/".data ++ g ++ ".mp3".data ∧
    matchGuidExt ".mp3".data (basename (audioKeyOf g)) = some g := by
  have hlen : g.length = 36 := isGuid_length g hg
  have hchars := isGuid_chars g hg
  refine ⟨?_, rfl, ?_⟩
  · unfold validateFileName
    have hends : pyEndsWith (g ++ ".mp4".data) ".mp4".data = true := by
      unfold pyEndsWith
      have hl : (g ++ ".mp4".data).length - ".mp4".data.length = g.length := by
        simp [List.length_append]
      rw [hl, List.drop_left]
      simp
    rw [hends]
    simp only [Bool.not_true, Bool.false_eq_true, if_false]
    rw [matchGuidExt_append ".mp4".data g hg (by decide)]
  · have hkey : audioKeyOf g = "VOD/FinishedVideos/".data ++ (g ++ ".mp3".data) := rfl
    rw [hkey, basename_vod]
    · exact matchGuidExt_append ".mp3".data g hg (by decide)
    · intro c hc
      rcases List.mem_append.mp hc with h1 | h2
      · exact hex_dash_ne_slash c (hchars c h1)
      · have h2' : c ∈ ['.', 'm', 'p', '3'] := h2
        fin_cases h2' <;> decide

/-- The mixed-case GUID used as the round-trip witness. -/
def gMixed : List Char := "3FA85F64-5717-4562-b3fc-2c963f66afa6".data

/-- Witness for C5 at a mixed-case GUID. -/
theorem guid_naming_roundtrip_witness :
    isGuid gMixed = true ∧
    (validateFileName (gMixed ++ ".mp4".data) = Except.ok gMixed ∧
     audioKeyOf gMixed = "VOD/FinishedVideos/".data ++ gMixed ++ ".mp3".data ∧
     matchGuidExt ".mp3".data (basename (audioKeyOf gMixed)) = some gMixed) :=
  ⟨by decide, guid_naming_roundtrip gMixed (by decide)⟩

/-! ### Transcription theorems (C8, C9) -/

/-- Constructor for a transcription request, for stating the pydantic
    default of language_code. -/
def mkTReq (key bucket : List Char) : TranscribeAudioRequest :=
  { audio_key := key, bucket_name := bucket }

/-- The success response of the transcription pipeline. -/
def transcribeOkResp (g : List Char) : TranscribeAudioResponse :=
  { success := true, transcription_job_name := some ("transcription_".data ++ g) }

/-- The job submission built at main.py:198-205. -/
def jobReqOf (bucket key lang g : List Char) : JobReq :=
  { jobName := "transcription_".data ++ g,
    mediaUri := "s3://".data ++ bucket ++ "/".data ++ key,
    mediaFormat := "mp3".data,
    languageCode := lang,
    outputBucketName := bucket,
    outputKey := "VOD/Subtitles/".data ++ g ++ ".json".data }

/-- The response built at main.py:194 when head_object raises ClientError. -/
def transcribeClientFailResp (key : List Char) : TranscribeAudioResponse :=
  { success := false,
    error := some ("Invalid or inaccessible audio file: ".data ++ key) }

/-- The response of the outer AWS handler at main.py:212-214. -/
def transcribeAwsErrResp (e : List Char) : TranscribeAudioResponse :=
  { success := false, error := some ("AWS Transcribe error: ".data ++ e) }

/-- C8: on a transcribe-audio request with a validly-shaped audio key, if
    the existence check does not succeed (a ClientError, or a
    credentials/endpoint fault caught by the outer handler), the response
    has success false with an error set and no job submission appears in
    the trace; moreover, over every world, a submission appears in the
    trace only when the existence check succeeded. -/
theorem transcribe_missing_object_no_job (req : TranscribeAudioRequest)
    (g : List Char) (w : TWorld)
    (hk : matchGuidExt ".mp3".data (basename req.audio_key) = some g)
    (hw : w.headObject ≠ AwsRes.ok) :
    (transcribeRun req w).1.success = false ∧
    (transcribeRun req w).1.error ≠ none ∧
    (∀ c ∈ (transcribeRun req w).2, c.isStartJob = false) ∧
    (∀ w' : TWorld, (∃ c ∈ (transcribeRun req w').2, c.isStartJob = true) →
      w'.headObject = AwsRes.ok) := by
  have hlast : ∀ w' : TWorld, (∃ c ∈ (transcribeRun req w').2, c.isStartJob = true) →
      w'.headObject = AwsRes.ok := by
    intro w' hex
    cases hob : w'.headObject with
    | ok => rfl
    | clientErr e =>
      simp only [transcribeRun, hk, hob] at hex
      obtain ⟨c, hc, hs⟩ := hex
      simp only [List.mem_singleton] at hc
      subst hc
      simp [TCall.isStartJob] at hs
    | credsErr e =>
      simp only [transcribeRun, hk, hob] at hex
      obtain ⟨c, hc, hs⟩ := hex
      simp only [List.mem_singleton] at hc
      subst hc
      simp [TCall.isStartJob] at hs
  cases hob : w.headObject with
  | ok => exact absurd hob hw
  | clientErr e =>
    have hred : transcribeRun req w =
        (transcribeClientFailResp req.audio_key,
         [TCall.headObject req.bucket_name req.audio_key]) := by
      simp only [transcribeRun, hk, hob, transcribeClientFailResp]
    rw [hred]
    refine ⟨rfl, by simp [transcribeClientFailResp], ?_, hlast⟩
    intro c hc
    simp only [List.mem_singleton] at hc
    subst hc
    rfl
  | credsErr e =>
    have hred : transcribeRun req w =
        (transcribeAwsErrResp e,
         [TCall.headObject req.bucket_name req.audio_key]) := by
      simp only [transcribeRun, hk, hob, transcribeAwsErrResp]
    rw [hred]
    refine ⟨rfl, by simp [transcribeAwsErrResp], ?_, hlast⟩
    intro c hc
    simp only [List.mem_singleton] at hc
    subst hc
    rfl

/-- The missing-object world of the C8 witness. -/
def wMissingObj : TWorld := { headObject := .clientErr "404".data, startJob := .ok }

/-- The valid audio key used by the transcription witnesses. -/
def keyValid : List Char :=
  "VOD/FinishedVideos/3fa85f64-5717-4562-b3fc-2c963f66afa6.mp3".data

/-- The GUID inside keyValid. -/
def gValid : List Char := "3fa85f64-5717-4562-b3fc-2c963f66afa6".data

/-- Witness for C8 at a concrete request whose object is missing. -/
theorem transcribe_missing_object_no_job_witness :
    (matchGuidExt ".mp3".data (basename (mkTReq keyValid "mybucket".data).audio_key) = some gValid ∧
     wMissingObj.headObject ≠ AwsRes.ok) ∧
    ((transcribeRun (mkTReq keyValid "mybucket".data) wMissingObj).1.success = false ∧
     (transcribeRun (mkTReq keyValid "mybucket".data) wMissingObj).1.error ≠ none ∧
     (∀ c ∈ (transcribeRun (mkTReq keyValid "mybucket".data) wMissingObj).2, c.isStartJob = false) ∧
     (∀ w' : TWorld,
       (∃ c ∈ (transcribeRun (mkTReq keyValid "mybucket".data) w').2, c.isStartJob = true) →
       w'.headObject = AwsRes.ok)) :=
  ⟨⟨by decide, by decide⟩,
   transcribe_missing_object_no_job (mkTReq keyValid "mybucket".data) gValid wMissingObj
     (by decide) (by decide)⟩

/-- The all-success transcription world. -/
def wTransOk : TWorld := { headObject := .ok, startJob := .ok }

/-- C9: on a transcribe-audio request with a validly-shaped audio key
    whose object exists, the handler returns success true with job name
    transcription_guid, and the trace records the existence check followed
    by exactly one submission using media format mp3, the caller-supplied
    language code, and output location bucket_name/VOD/Subtitles/guid.json;
    a request built without an explicit language code carries en-US. -/
theorem transcribe_ok_submits_job (req : TranscribeAudioRequest) (g : List Char)
    (hk : matchGuidExt ".mp3".data (basename req.audio_key) = some g) :
    (transcribeRun req wTransOk).1 = transcribeOkResp g ∧
    (transcribeRun req wTransOk).2 =
      [TCall.headObject req.bucket_name req.audio_key,
       TCall.startJob (jobReqOf req.bucket_name req.audio_key req.language_code g)] ∧
    (mkTReq req.audio_key req.bucket_name).language_code = "en-US".data := by
  simp only [transcribeRun, hk, wTransOk]
  exact ⟨rfl, rfl, rfl⟩

/-- Witness for C9 at a concrete valid request. -/
theorem transcribe_ok_submits_job_witness :
    matchGuidExt ".mp3".data (basename (mkTReq keyValid "mybucket".data).audio_key) = some gValid ∧
    ((transcribeRun (mkTReq keyValid "mybucket".data) wTransOk).1 = transcribeOkResp gValid ∧
     (transcribeRun (mkTReq keyValid "mybucket".data) wTransOk).2 =
       [TCall.headObject (mkTReq keyValid "mybucket".data).bucket_name
          (mkTReq keyValid "mybucket".data).audio_key,
        TCall.startJob (jobReqOf (mkTReq keyValid "mybucket".data).bucket_name
          (mkTReq keyValid "mybucket".data).audio_key
          (mkTReq keyValid "mybucket".data).language_code gValid)] ∧
     (mkTReq (mkTReq keyValid "mybucket".data).audio_key
        (mkTReq keyValid "mybucket".data).bucket_name).language_code = "en-US".data) :=
  ⟨by decide, transcribe_ok_submits_job (mkTReq keyValid "mybucket".data) gValid (by decide)⟩

end MediaInfoApi
